import Mathlib

/-!
Verification development for the podcast detail-update pipeline
(src/update_all_podcast_details.py).

The script is embedded shallowly: every external HTTP call is represented by
the response the server would give for it (an `ApiResponse`), JSON payloads
become structures whose optional fields model `dict.get`, Python truthiness
of optional strings and integers is made explicit, and the per-title loop
body of `update_all_podcast_details` becomes the pure function
`processTitle` over an environment of responses.  `difflib.SequenceMatcher
.ratio()` is an external library routine; it is carried as an abstract
parameter `ratio : String → String → ℚ`, applied exactly where the script
applies it (to the lowercased query and candidate title).  SQLite's
`INSERT OR REPLACE` on the `podcast_id INTEGER PRIMARY KEY` column is
modelled by `upsert` on a list of rows.
-/

namespace PodcastPipeline

/-- Outcome of one HTTP request as the script observes it: a transport-level
failure (`requests.exceptions.RequestException`), a non-2xx status
(`response.raise_for_status()` raising `HTTPError`), a JSON decode failure
(`json.JSONDecodeError`, or any other exception caught by the generic
`except Exception` arms), or a decoded payload. -/
inductive ApiResponse (α : Type) where
  | transportError : ApiResponse α
  | httpError (code : Nat) : ApiResponse α
  | decodeError : ApiResponse α
  | ok (payload : α) : ApiResponse α
deriving DecidableEq

/-- One element of the search results list (`feeds` / `results` in the JSON).
Optional fields model `res.get(key)`; a missing key is `none`. -/
structure Candidate where
  id : Option Int
  title_original : Option String
  title : Option String
  url : Option String
  originalUrl : Option String
deriving DecidableEq

/-- Decoded body of a search response: `data.get("feeds")` and
`data.get("results")`. -/
structure SearchPage where
  feeds : Option (List Candidate)
  results : Option (List Candidate)
deriving DecidableEq

/-- The `categories` value of a feed payload: a JSON object (string-keyed
map) or already a string; anything else (null / absent) is `none` at the
field. -/
inductive CatVal where
  | dict (entries : List (String × String)) : CatVal
  | str (s : String) : CatVal
deriving DecidableEq

/-- The full feed payload (`data["feed"]`) as read by
`update_all_podcast_details` via `full_details.get(...)`. -/
structure FeedDetail where
  id : Option Int
  title : Option String
  description : Option String
  url : Option String
  originalUrl : Option String
  image : Option String
  artwork : Option String
  episodeCount : Option Int
  lastUpdateTime : Option Int
  categories : Option CatVal
  podcastGuid : Option String
deriving DecidableEq

/-- Decoded body of a `podcasts/byfeedid` or `podcasts/byfeedurl` response.
`feed` is `some d` exactly when `data.get("feed")` is truthy (a present,
non-empty feed object); a missing, null or empty `feed` is `none`. -/
structure DetailPage where
  feed : Option FeedDetail
deriving DecidableEq

/-- The `duration` value of one episode item: absent key, a Python int, or
a value of some other type (float, string, ...), which the script's
`isinstance(duration, int)` check rejects. -/
inductive DurVal where
  | missing : DurVal
  | intVal (n : Int) : DurVal
  | nonint : DurVal
deriving DecidableEq

/-- One element of the `items` list of an `episodes/byfeedid` response. -/
structure Episode where
  title : Option String
  duration : DurVal
deriving DecidableEq

/-- Decoded body of an `episodes/byfeedid` response (`data.get("items", [])`). -/
structure EpisodesPage where
  items : List Episode
deriving DecidableEq

/-- A row of the `Podcasts` table, in the column order of the CREATE TABLE
statement. -/
structure Row where
  podcast_id : Int
  title : Option String
  description : Option String
  feed_url : Option String
  image_url : Option String
  episode_count : Option Int
  avg_duration_last_10 : Option Int
  latest_episode_title : Option String
  last_update_time : Option Int
  categories : Option String
  podcast_guid : Option String
  original_url : Option String
deriving DecidableEq

/-- Python truthiness of an optional string: `None` and `""` are falsy. -/
def strTruthy : Option String → Bool
  | none => false
  | some s => s != ""

/-- Python truthiness of an optional integer: `None` and `0` are falsy. -/
def intTruthy : Option Int → Bool
  | none => false
  | some n => n != 0

/-- Python `a or b` on optional strings: `a` if truthy, else `b`. -/
def orFalsy (a b : Option String) : Option String :=
  if strTruthy a then a else b

/-- Effective candidate title in `search_byterm`:
`res.get("title_original", "") or res.get("title", "")`. -/
def effTitleByterm (c : Candidate) : String :=
  if c.title_original.getD "" ≠ "" then c.title_original.getD "" else c.title.getD ""

/-- Effective candidate title in `search_bytitle`: `feed.get("title", "")`. -/
def effTitleBytitle (c : Candidate) : String :=
  c.title.getD ""

/-- Result list used by `search_byterm`:
`data.get("feeds") or data.get("results", [])`. -/
def feedsOrResults (p : SearchPage) : List Candidate :=
  if p.feeds.getD [] ≠ [] then p.feeds.getD [] else p.results.getD []

/-- Similarity score the script computes for a candidate:
`difflib.SequenceMatcher(None, query.lower(), candidate_title.lower()).ratio()`
with the ratio routine abstract. -/
def candScore (ratio : String → String → ℚ) (query : String)
    (getTitle : Candidate → String) (c : Candidate) : ℚ :=
  ratio query.toLower (getTitle c).toLower

/-- The best-match selection loop shared by `search_byterm` and
`search_bytitle`: a running `best_match` (initially `None`) and `best_ratio`
(initially `0`), a candidate with an empty effective title is skipped
(`continue`), and the running pair is replaced only on strict improvement
(`ratio > best_ratio`). -/
def fuzzyBestLoop (ratio : String → String → ℚ) (query : String)
    (getTitle : Candidate → String) :
    List Candidate → Option Candidate × ℚ → Option Candidate × ℚ
  | [], acc => acc
  | res :: rest, acc =>
      let t := getTitle res
      if t = "" then fuzzyBestLoop ratio query getTitle rest acc
      else
        let r := ratio query.toLower t.toLower
        if acc.2 < r then fuzzyBestLoop ratio query getTitle rest (some res, r)
        else fuzzyBestLoop ratio query getTitle rest acc

/-- Embeds `search_byterm` (lines 35-70): on a decoded payload run the
fuzzy-match loop over `feeds or results`; return the best match only if one
exists and its ratio is at least 0.4 (= 2/5); every other outcome —
transport error, non-2xx status, decode failure, empty result list,
sub-threshold best ratio — yields `none`. -/
def search_byterm (ratio : String → String → ℚ) (query : String)
    (resp : ApiResponse SearchPage) : Option Candidate :=
  match resp with
  | .ok page =>
      let results := feedsOrResults page
      if results ≠ [] then
        match fuzzyBestLoop ratio query effTitleByterm results (none, 0) with
        | (some best, br) => if br ≥ 2/5 then some best else none
        | (none, _) => none
      else none
  | _ => none

/-- Embeds `search_bytitle` (lines 72-107): identical loop and threshold,
but over `data.get("feeds", [])` and scoring `feed.get("title", "")`. -/
def search_bytitle (ratio : String → String → ℚ) (query : String)
    (resp : ApiResponse SearchPage) : Option Candidate :=
  match resp with
  | .ok page =>
      let feeds := page.feeds.getD []
      if feeds ≠ [] then
        match fuzzyBestLoop ratio query effTitleBytitle feeds (none, 0) with
        | (some best, br) => if br ≥ 2/5 then some best else none
        | (none, _) => none
      else none
  | _ => none

/-- Embeds `search_podcast_combined` (lines 109-122): `search_byterm` first;
`search_bytitle` only if it returned nothing (a returned match always holds a
non-empty title, so Python's `if not result` is exactly `isNone`).  The
second component records whether the bytitle fallback was invoked. -/
def search_podcast_combined (ratio : String → String → ℚ) (query : String)
    (bresp tresp : ApiResponse SearchPage) : Option Candidate × Bool :=
  match search_byterm ratio query bresp with
  | some r => (some r, false)
  | none => (search_bytitle ratio query tresp, true)

/-- Embeds both `get_full_podcast_details_by_feed_id` (lines 126-152) and
`get_full_podcast_details_by_feed_url` (lines 154-180), which differ only in
endpoint and parameter: return `data["feed"]` when the decoded payload has a
truthy `feed`, and `none` on every failure outcome. -/
def get_full_podcast_details (resp : ApiResponse DetailPage) : Option FeedDetail :=
  match resp with
  | .ok page => page.feed
  | _ => none

/-- The duration-accumulation loop of `get_latest_episode_info` (lines
215-221): `total_duration` and `valid_episode_count`, counting an episode
exactly when `duration and isinstance(duration, int) and duration > 0`.
The durations counted are positive, so accumulating `n.toNat` equals the
Python integer sum. -/
def durationFold : List Episode → Nat × Nat → Nat × Nat
  | [], acc => acc
  | e :: rest, acc =>
      match e.duration with
      | .intVal n =>
          if n ≠ 0 ∧ 0 < n then durationFold rest (acc.1 + n.toNat, acc.2 + 1)
          else durationFold rest acc
      | _ => durationFold rest acc

/-- Embeds `get_latest_episode_info` (lines 183-242): on a decoded payload
with a non-empty `items` list, the latest title is `items[0].get("title")`
and the average is `int(total_duration / valid_episode_count)` when at least
one episode qualified, else `None`; an empty list or any failure outcome
yields `(None, None)`.  Python's float division followed by `int(...)` is
modelled as exact truncating natural division, with which it agrees on the
representable range. -/
def get_latest_episode_info (resp : ApiResponse EpisodesPage) :
    Option Int × Option String :=
  match resp with
  | .ok page =>
      match page.items with
      | [] => (none, none)
      | first :: _ =>
          let tc := durationFold page.items (0, 0)
          let avg : Option Int :=
            if 0 < tc.2 then some ((tc.1 / tc.2 : Nat) : Int) else none
          (avg, first.title)
  | _ => (none, none)

/-- Serialization of a categories object as `json.dumps` renders it. -/
def dumpCategories (es : List (String × String)) : String :=
  "\x7b" ++
    String.intercalate ", "
      (es.map fun p => "\x22" ++ p.1 ++ "\x22: \x22" ++ p.2 ++ "\x22") ++
  "\x7d"

/-- The categories-to-JSON step (lines 343-351): a truthy dict is dumped, a
string is kept as is, anything else leaves the column `None`. -/
def categoriesJson : Option CatVal → Option String
  | some (.dict es) => if es ≠ [] then some (dumpCategories es) else none
  | some (.str s) => some s
  | none => none

/-- Assembly of the row inserted for one title (lines 316-375): every column
from the fetched detail, except that a falsy detail `url` / `originalUrl` is
replaced by the candidate's `url` / `originalUrl` (lines 339-340), the image
column is `image or artwork`, and the two episode-stats columns come from
`get_latest_episode_info`. -/
def buildRow (candidate : Candidate) (d : FeedDetail)
    (stats : Option Int × Option String) (fid : Int) : Row where
  podcast_id := fid
  title := d.title
  description := d.description
  feed_url := if strTruthy d.url then d.url else candidate.url
  image_url := if strTruthy d.image then d.image else d.artwork
  episode_count := d.episodeCount
  avg_duration_last_10 := stats.1
  latest_episode_title := stats.2
  last_update_time := d.lastUpdateTime
  categories := categoriesJson d.categories
  podcast_guid := d.podcastGuid
  original_url := if strTruthy d.originalUrl then d.originalUrl else candidate.originalUrl

/-- Environment for processing one title: the responses the external
directory gives to each request the loop body can issue, plus the abstract
similarity ratio. -/
structure TitleEnv where
  ratio : String → String → ℚ
  bytermResp : ApiResponse SearchPage
  bytitleResp : ApiResponse SearchPage
  byFeedIdResp : Int → ApiResponse DetailPage
  byFeedUrlResp : String → ApiResponse DetailPage
  episodesResp : Int → ApiResponse EpisodesPage

/-- The search stage of the loop body (line 293). -/
def searchStage (env : TitleEnv) (title : String) : Option Candidate :=
  (search_podcast_combined env.ratio title env.bytermResp env.bytitleResp).1

/-- The by-feed-id branch of the detail stage (lines 300-305): attempted only
when `candidate.get("id")` is truthy. -/
def byIdDetail (env : TitleEnv) (c : Candidate) : Option FeedDetail :=
  match c.id with
  | some fid => if fid = 0 then none else get_full_podcast_details (env.byFeedIdResp fid)
  | none => none

/-- The fallback URL the detail stage would use (line 308):
`candidate.get("url") or candidate.get("originalUrl")`, kept only if truthy. -/
def urlFallback (c : Candidate) : Option String :=
  let u := orFalsy c.url c.originalUrl
  if strTruthy u then u else none

/-- The full detail stage (lines 299-313): by-feed-id first, and on a falsy
result the by-feed-url fallback, attempted only when the candidate carries a
truthy url or originalUrl. -/
def detailStage (env : TitleEnv) (c : Candidate) : Option FeedDetail :=
  match byIdDetail env c with
  | some d => some d
  | none =>
      match urlFallback c with
      | some u => get_full_podcast_details (env.byFeedUrlResp u)
      | none => none

/-- The episode-stats stage (lines 328-336): called only when the fetched
detail's `id` is truthy; otherwise both values stay `None`. -/
def statsStage (env : TitleEnv) (d : FeedDetail) : Option Int × Option String :=
  match d.id with
  | some fid => if fid = 0 then (none, none) else get_latest_episode_info (env.episodesResp fid)
  | none => (none, none)

/-- Observable outcome of one iteration of the title loop: the rows inserted
for this title, the `time.sleep` argument executed at its end, and which
later stages were actually invoked. -/
structure TitleOutcome where
  rows : List Row
  sleep : ℚ
  detailByIdCalled : Bool
  detailByUrlCalled : Bool
  episodesCalled : Bool
deriving DecidableEq

/-- Embeds the body of the per-title loop of `update_all_podcast_details`
(lines 288-388): a failed search sleeps 1 and continues; otherwise the detail
stage runs (by id, then by url); with a detail in hand the episode stats are
fetched and the row inserted only when the detail's `id` is truthy; every
such title ends with a 1.5 sleep.  A successful insert is modelled as
appending the built row (a per-record sqlite error only skips the row). -/
def processTitle (env : TitleEnv) (title : String) : TitleOutcome :=
  match searchStage env title with
  | none =>
      { rows := [], sleep := 1, detailByIdCalled := false,
        detailByUrlCalled := false, episodesCalled := false }
  | some candidate =>
      let idCalled := intTruthy candidate.id
      let urlCalled := (byIdDetail env candidate).isNone && (urlFallback candidate).isSome
      match detailStage env candidate with
      | none =>
          { rows := [], sleep := 3/2, detailByIdCalled := idCalled,
            detailByUrlCalled := urlCalled, episodesCalled := false }
      | some d =>
          match d.id with
          | some fid =>
              if fid = 0 then
                { rows := [], sleep := 3/2, detailByIdCalled := idCalled,
                  detailByUrlCalled := urlCalled, episodesCalled := false }
              else
                { rows := [buildRow candidate d (statsStage env d) fid], sleep := 3/2,
                  detailByIdCalled := idCalled, detailByUrlCalled := urlCalled,
                  episodesCalled := true }
          | none =>
              { rows := [], sleep := 3/2, detailByIdCalled := idCalled,
                detailByUrlCalled := urlCalled, episodesCalled := false }

/-- Models `INSERT OR REPLACE INTO Podcasts` with `podcast_id INTEGER
PRIMARY KEY`: any existing row with the same key is deleted and the new row
inserted. -/
def upsert (table : List Row) (r : Row) : List Row :=
  table.filter (fun r0 => r0.podcast_id != r.podcast_id) ++ [r]

/-- A whole run over the title list: the table is dropped and recreated
(started empty), then each title's rows are upserted in order. -/
def runTable (envOf : String → TitleEnv) (titles : List String) : List Row :=
  titles.foldl
    (fun tbl title => ((processTitle (envOf title) title).rows).foldl upsert tbl) []

/-- Spec-side helper (claim C4): the durations of exactly those episodes
whose duration is a positive integer. -/
def positiveIntDurations (items : List Episode) : List Nat :=
  items.filterMap fun e =>
    match e.duration with
    | .intVal n => if 0 < n then some n.toNat else none
    | _ => none

/-! Concrete fixtures used by witnesses and counterexamples. -/

/-- A similarity ratio that scores every pair 1. -/
def ratio1 : String → String → ℚ := fun _ _ => 1

/-- A similarity ratio that scores every pair 3/10 (below the 0.4 threshold). -/
def ratioLow : String → String → ℚ := fun _ _ => 3/10

def candX : Candidate :=
  { id := some 5, title_original := some "x", title := none, url := none,
    originalUrl := none }

def candY : Candidate :=
  { id := some 6, title_original := some "y", title := none, url := none,
    originalUrl := none }

def searchOkPage : SearchPage := { feeds := some [candX], results := none }

def searchOkPage2 : SearchPage := { feeds := some [candX, candY], results := none }

def feedX : FeedDetail :=
  { id := some 5, title := some "x", description := none, url := some "u",
    originalUrl := none, image := none, artwork := none, episodeCount := some 3,
    lastUpdateTime := none, categories := none, podcastGuid := none }

def feedNoId : FeedDetail := { feedX with id := none }

/-- Environment where search and detail succeed but the episodes fetch fails. -/
def envStatsFail : TitleEnv :=
  { ratio := ratio1, bytermResp := .ok searchOkPage, bytitleResp := .transportError,
    byFeedIdResp := fun _ => .ok { feed := some feedX },
    byFeedUrlResp := fun _ => .transportError,
    episodesResp := fun _ => .transportError }

/-- Environment where search succeeds but both detail paths fail. -/
def envDetailFail : TitleEnv :=
  { envStatsFail with byFeedIdResp := fun _ => .transportError }

/-- Environment where both search strategies fail. -/
def envSearchFail : TitleEnv :=
  { envStatsFail with bytermResp := .transportError }

/-- Environment whose fetched feed detail lacks an `id`. -/
def envNoId : TitleEnv :=
  { envStatsFail with byFeedIdResp := fun _ => .ok { feed := some feedNoId } }

/-- The spec's episode scenario: durations 600, 0, 900. -/
def episodesPageC4 : EpisodesPage :=
  { items := [ { title := some "e1", duration := .intVal 600 },
               { title := some "e2", duration := .intVal 0 },
               { title := some "e3", duration := .intVal 900 } ] }

/-- A non-empty episode list whose first item has no title. -/
def episodesPageNoTitle : EpisodesPage :=
  { items := [ { title := none, duration := .intVal 600 } ] }

def rowA : Row :=
  { podcast_id := 7, title := some "a", description := none, feed_url := none,
    image_url := none, episode_count := none, avg_duration_last_10 := none,
    latest_episode_title := none, last_update_time := none, categories := none,
    podcast_guid := none, original_url := none }

def rowB : Row := { rowA with title := some "b" }

/-! Helper lemmas. -/

/-- Invariant of the fuzzy-match loop: a returned best match is either the
incoming accumulator (and nothing in the list beat its ratio), or the
earliest scored candidate attaining the final ratio — every scored candidate
before it scores strictly less, every scored candidate after it scores at
most as much. -/
lemma fuzzyBestLoop_spec (ratio : String → String → ℚ) (query : String)
    (getTitle : Candidate → String) :
    ∀ (l : List Candidate) (b : Option Candidate) (br : ℚ) (m : Candidate) (r : ℚ),
      fuzzyBestLoop ratio query getTitle l (b, br) = (some m, r) →
      (b = some m ∧ br = r ∧
        ∀ c ∈ l, getTitle c ≠ "" → candScore ratio query getTitle c ≤ r) ∨
      (∃ l1 l2, l = l1 ++ m :: l2 ∧ getTitle m ≠ "" ∧
        r = candScore ratio query getTitle m ∧ br < r ∧
        (∀ c ∈ l1, getTitle c ≠ "" → candScore ratio query getTitle c < r) ∧
        (∀ c ∈ l2, getTitle c ≠ "" → candScore ratio query getTitle c ≤ r)) := by
  intro l
  induction l with
  | nil =>
      intro b br m r h
      simp only [fuzzyBestLoop, Prod.mk.injEq] at h
      left
      refine ⟨h.1, h.2, ?_⟩
      intro c hc
      simp at hc
  | cons res rest ih =>
      intro b br m r h
      simp only [fuzzyBestLoop] at h
      split_ifs at h with ht hlt
      · -- skipped: empty effective title
        rcases ih b br m r h with ⟨hb, hbr, hall⟩ | ⟨l1, l2, hsplit, hok, hr, hbr, h1, h2⟩
        · left
          refine ⟨hb, hbr, ?_⟩
          intro c hc hcok
          rcases List.mem_cons.mp hc with rfl | hc2
          · exact absurd ht hcok
          · exact hall c hc2 hcok
        · right
          refine ⟨res :: l1, l2, by simp [hsplit], hok, hr, hbr, ?_, h2⟩
          intro c hc hcok
          rcases List.mem_cons.mp hc with rfl | hc2
          · exact absurd ht hcok
          · exact h1 c hc2 hcok
      · -- strict improvement: accumulator becomes (some res, ratio ...)
        rcases ih (some res) (ratio query.toLower (getTitle res).toLower) m r h with
          ⟨hb, hbr, hall⟩ | ⟨l1, l2, hsplit, hok, hr, hbr, h1, h2⟩
        · injection hb with hb
          subst hb
          right
          refine ⟨[], rest, rfl, ht, hbr.symm, ?_, ?_, hall⟩
          · rw [← hbr]; exact hlt
          · intro c hc; simp at hc
        · right
          refine ⟨res :: l1, l2, by simp [hsplit], hok, hr, lt_trans hlt hbr, ?_, h2⟩
          intro c hc hcok
          rcases List.mem_cons.mp hc with rfl | hc2
          · exact hbr
          · exact h1 c hc2 hcok
      · -- no improvement: accumulator kept
        rcases ih b br m r h with ⟨hb, hbr, hall⟩ | ⟨l1, l2, hsplit, hok, hr, hbr, h1, h2⟩
        · left
          refine ⟨hb, hbr, ?_⟩
          intro c hc hcok
          rcases List.mem_cons.mp hc with rfl | hc2
          · rw [← hbr]; exact not_lt.mp hlt
          · exact hall c hc2 hcok
        · right
          refine ⟨res :: l1, l2, by simp [hsplit], hok, hr, hbr, ?_, h2⟩
          intro c hc hcok
          rcases List.mem_cons.mp hc with rfl | hc2
          · exact lt_of_le_of_lt (not_lt.mp hlt) hbr
          · exact h1 c hc2 hcok

/-- Specialization of `fuzzyBestLoop_spec` to the loop's actual starting
accumulator `(None, 0)`. -/
lemma fuzzyBestLoop_init_spec {ratio : String → String → ℚ} {query : String}
    {getTitle : Candidate → String} {l : List Candidate} {m : Candidate} {r : ℚ}
    (h : fuzzyBestLoop ratio query getTitle l (none, 0) = (some m, r)) :
    ∃ l1 l2, l = l1 ++ m :: l2 ∧ getTitle m ≠ "" ∧
      r = candScore ratio query getTitle m ∧
      (∀ c ∈ l1, getTitle c ≠ "" → candScore ratio query getTitle c < r) ∧
      (∀ c ∈ l2, getTitle c ≠ "" → candScore ratio query getTitle c ≤ r) := by
  rcases fuzzyBestLoop_spec ratio query getTitle l none 0 m r h with
    ⟨hb, _, _⟩ | ⟨l1, l2, hsplit, hok, hr, _, h1, h2⟩
  · exact absurd hb (by simp)
  · exact ⟨l1, l2, hsplit, hok, hr, h1, h2⟩

/-- Eliminating a successful `search_byterm`: the response decoded, the
returned candidate sits in `feeds or results`, its effective title is
non-empty, its score reaches the threshold, every scored candidate before it
scores strictly less and every scored candidate after it at most as much. -/
lemma search_byterm_some_elim {ratio : String → String → ℚ} {query : String}
    {resp : ApiResponse SearchPage} {c : Candidate}
    (h : search_byterm ratio query resp = some c) :
    ∃ page l1 l2, resp = .ok page ∧ feedsOrResults page = l1 ++ c :: l2 ∧
      effTitleByterm c ≠ "" ∧ 2/5 ≤ candScore ratio query effTitleByterm c ∧
      (∀ x ∈ l1, effTitleByterm x ≠ "" →
        candScore ratio query effTitleByterm x < candScore ratio query effTitleByterm c) ∧
      (∀ x ∈ l2, effTitleByterm x ≠ "" →
        candScore ratio query effTitleByterm x ≤ candScore ratio query effTitleByterm c) := by
  cases resp with
  | transportError => simp [search_byterm] at h
  | httpError code => simp [search_byterm] at h
  | decodeError => simp [search_byterm] at h
  | ok page =>
      refine ⟨page, ?_⟩
      simp only [search_byterm] at h
      by_cases hne : feedsOrResults page ≠ []
      · rw [if_pos hne] at h
        rcases hb : fuzzyBestLoop ratio query effTitleByterm (feedsOrResults page) (none, 0) with
          ⟨bm, br⟩
        rw [hb] at h
        cases bm with
        | none => simp at h
        | some best =>
            simp only [ge_iff_le] at h
            by_cases hth : 2/5 ≤ br
            · rw [if_pos hth] at h
              injection h with h
              subst h
              obtain ⟨l1, l2, hsplit, hok, hr, h1, h2⟩ := fuzzyBestLoop_init_spec hb
              rw [hr] at hth h1 h2
              exact ⟨l1, l2, rfl, hsplit, hok, hth, h1, h2⟩
            · rw [if_neg hth] at h
              simp at h
      · rw [if_neg hne] at h
        simp at h

/-- Eliminating a successful `search_bytitle`, analogously over
`data.get("feeds", [])` and `feed.get("title", "")`. -/
lemma search_bytitle_some_elim {ratio : String → String → ℚ} {query : String}
    {resp : ApiResponse SearchPage} {c : Candidate}
    (h : search_bytitle ratio query resp = some c) :
    ∃ page l1 l2, resp = .ok page ∧ page.feeds.getD [] = l1 ++ c :: l2 ∧
      effTitleBytitle c ≠ "" ∧ 2/5 ≤ candScore ratio query effTitleBytitle c ∧
      (∀ x ∈ l1, effTitleBytitle x ≠ "" →
        candScore ratio query effTitleBytitle x < candScore ratio query effTitleBytitle c) ∧
      (∀ x ∈ l2, effTitleBytitle x ≠ "" →
        candScore ratio query effTitleBytitle x ≤ candScore ratio query effTitleBytitle c) := by
  cases resp with
  | transportError => simp [search_bytitle] at h
  | httpError code => simp [search_bytitle] at h
  | decodeError => simp [search_bytitle] at h
  | ok page =>
      refine ⟨page, ?_⟩
      simp only [search_bytitle] at h
      by_cases hne : page.feeds.getD [] ≠ []
      · rw [if_pos hne] at h
        rcases hb : fuzzyBestLoop ratio query effTitleBytitle (page.feeds.getD []) (none, 0) with
          ⟨bm, br⟩
        rw [hb] at h
        cases bm with
        | none => simp at h
        | some best =>
            simp only [ge_iff_le] at h
            by_cases hth : 2/5 ≤ br
            · rw [if_pos hth] at h
              injection h with h
              subst h
              obtain ⟨l1, l2, hsplit, hok, hr, h1, h2⟩ := fuzzyBestLoop_init_spec hb
              rw [hr] at hth h1 h2
              exact ⟨l1, l2, rfl, hsplit, hok, hth, h1, h2⟩
            · rw [if_neg hth] at h
              simp at h
      · rw [if_neg hne] at h
        simp at h

/-- When every scored candidate of the decoded result list scores below the
threshold, `search_byterm` returns nothing. -/
lemma search_byterm_none_of_low {ratio : String → String → ℚ} {query : String}
    {page : SearchPage}
    (h : ∀ x ∈ feedsOrResults page, effTitleByterm x ≠ "" →
      candScore ratio query effTitleByterm x < 2/5) :
    search_byterm ratio query (.ok page) = none := by
  cases hres : search_byterm ratio query (.ok page) with
  | none => rfl
  | some c =>
      obtain ⟨page2, l1, l2, hpage, hsplit, hok, hth, _, _⟩ := search_byterm_some_elim hres
      injection hpage with hpage
      subst hpage
      have hmem : c ∈ feedsOrResults page := by
        rw [hsplit]
        exact List.mem_append_right _ (List.mem_cons_self _ _)
      exact absurd hth (not_le.mpr (h c hmem hok))

/-- When every scored candidate of `feeds` scores below the threshold,
`search_bytitle` returns nothing. -/
lemma search_bytitle_none_of_low {ratio : String → String → ℚ} {query : String}
    {page : SearchPage}
    (h : ∀ x ∈ page.feeds.getD [], effTitleBytitle x ≠ "" →
      candScore ratio query effTitleBytitle x < 2/5) :
    search_bytitle ratio query (.ok page) = none := by
  cases hres : search_bytitle ratio query (.ok page) with
  | none => rfl
  | some c =>
      obtain ⟨page2, l1, l2, hpage, hsplit, hok, hth, _, _⟩ := search_bytitle_some_elim hres
      injection hpage with hpage
      subst hpage
      have hmem : c ∈ page.feeds.getD [] := by
        rw [hsplit]
        exact List.mem_append_right _ (List.mem_cons_self _ _)
      exact absurd hth (not_le.mpr (h c hmem hok))

/-! Claim theorems. -/

/-- C2: any candidate returned by `search_byterm` or `search_bytitle` has a
similarity score of at least 0.4 (= 2/5) against the lowercased query, and
when every scored candidate of the result list is below 0.4 the strategy
returns nothing. -/
theorem c2_threshold (ratio : String → String → ℚ) (query : String)
    (resp : ApiResponse SearchPage) (page : SearchPage) (c : Candidate) :
    (search_byterm ratio query resp = some c →
      2/5 ≤ candScore ratio query effTitleByterm c) ∧
    (search_bytitle ratio query resp = some c →
      2/5 ≤ candScore ratio query effTitleBytitle c) ∧
    ((∀ x ∈ feedsOrResults page, effTitleByterm x ≠ "" →
        candScore ratio query effTitleByterm x < 2/5) →
      search_byterm ratio query (.ok page) = none) ∧
    ((∀ x ∈ page.feeds.getD [], effTitleBytitle x ≠ "" →
        candScore ratio query effTitleBytitle x < 2/5) →
      search_bytitle ratio query (.ok page) = none) := by
  refine ⟨?_, ?_, search_byterm_none_of_low, search_bytitle_none_of_low⟩
  · intro h
    obtain ⟨_, _, _, _, _, _, hth, _, _⟩ := search_byterm_some_elim h
    exact hth
  · intro h
    obtain ⟨_, _, _, _, _, _, hth, _, _⟩ := search_bytitle_some_elim h
    exact hth

/-- C2 witness: with a constant ratio of 1 the single candidate is returned
and its score meets the threshold. -/
theorem c2_threshold_witness :
    2/5 ≤ candScore ratio1 "x" effTitleByterm candX :=
  (c2_threshold ratio1 "x" (.ok searchOkPage) searchOkPage candX).1
    (by norm_num +decide [search_byterm, feedsOrResults, searchOkPage, fuzzyBestLoop,
          effTitleByterm, candX, ratio1])

/-- C3: the candidate selected by the fuzzy-match loop (as surfaced by either
search strategy) is the earliest scored candidate attaining the maximal
score: every scored candidate before it in the result list scores strictly
less, and every scored candidate after it scores at most as much — so true
ties keep the earliest candidate. -/
theorem c3_earliest_max (ratio : String → String → ℚ) (query : String)
    (resp : ApiResponse SearchPage) (c : Candidate) :
    (search_byterm ratio query resp = some c →
      ∃ page l1 l2, resp = .ok page ∧ feedsOrResults page = l1 ++ c :: l2 ∧
        (∀ x ∈ l1, effTitleByterm x ≠ "" →
          candScore ratio query effTitleByterm x < candScore ratio query effTitleByterm c) ∧
        (∀ x ∈ l2, effTitleByterm x ≠ "" →
          candScore ratio query effTitleByterm x ≤ candScore ratio query effTitleByterm c)) ∧
    (search_bytitle ratio query resp = some c →
      ∃ page l1 l2, resp = .ok page ∧ page.feeds.getD [] = l1 ++ c :: l2 ∧
        (∀ x ∈ l1, effTitleBytitle x ≠ "" →
          candScore ratio query effTitleBytitle x < candScore ratio query effTitleBytitle c) ∧
        (∀ x ∈ l2, effTitleBytitle x ≠ "" →
          candScore ratio query effTitleBytitle x ≤ candScore ratio query effTitleBytitle c)) := by
  constructor
  · intro h
    obtain ⟨page, l1, l2, hpage, hsplit, _, _, h1, h2⟩ := search_byterm_some_elim h
    exact ⟨page, l1, l2, hpage, hsplit, h1, h2⟩
  · intro h
    obtain ⟨page, l1, l2, hpage, hsplit, _, _, h1, h2⟩ := search_bytitle_some_elim h
    exact ⟨page, l1, l2, hpage, hsplit, h1, h2⟩

/-- C3 witness: on a two-candidate list with equal scores the loop keeps the
earliest candidate, and the decomposition of the theorem holds for it. -/
theorem c3_earliest_max_witness :
    ∃ page l1 l2, (ApiResponse.ok searchOkPage2 : ApiResponse SearchPage) = .ok page ∧
      feedsOrResults page = l1 ++ candX :: l2 ∧
      (∀ x ∈ l1, effTitleByterm x ≠ "" →
        candScore ratio1 "x" effTitleByterm x < candScore ratio1 "x" effTitleByterm candX) ∧
      (∀ x ∈ l2, effTitleByterm x ≠ "" →
        candScore ratio1 "x" effTitleByterm x ≤ candScore ratio1 "x" effTitleByterm candX) :=
  (c3_earliest_max ratio1 "x" (.ok searchOkPage2) candX).1
    (by norm_num +decide [search_byterm, feedsOrResults, searchOkPage2, fuzzyBestLoop,
          effTitleByterm, candX, candY, ratio1])

/-- C5: `search_podcast_combined` invokes the bytitle fallback exactly when
`search_byterm` produced no accepted candidate; an accepted byterm candidate
is returned as is with the fallback never invoked. -/
theorem c5_fallback_iff (ratio : String → String → ℚ) (query : String)
    (bresp tresp : ApiResponse SearchPage) :
    ((search_podcast_combined ratio query bresp tresp).2 = true ↔
      search_byterm ratio query bresp = none) ∧
    (∀ c, search_byterm ratio query bresp = some c →
      search_podcast_combined ratio query bresp tresp = (some c, false)) := by
  constructor
  · cases h : search_byterm ratio query bresp <;>
      simp [search_podcast_combined, h]
  · intro c h
    simp [search_podcast_combined, h]

/-- C5 witness: a successful byterm search is returned without invoking the
fallback. -/
theorem c5_fallback_iff_witness :
    search_podcast_combined ratio1 "x" (.ok searchOkPage) .transportError =
      (some candX, false) :=
  (c5_fallback_iff ratio1 "x" (.ok searchOkPage) .transportError).2 candX
    (by norm_num +decide [search_byterm, feedsOrResults, searchOkPage, fuzzyBestLoop,
          effTitleByterm, candX, ratio1])

/-- C7: the search and detail-fetch functions are total Lean functions (no
exception can propagate) and return nothing on every error outcome: transport
error, non-2xx status, malformed payload, empty result set, sub-threshold
best score, and (for the detail fetch) a payload without a truthy feed. -/
theorem c7_never_raises (ratio : String → String → ℚ) (query : String)
    (code : Nat) (p : SearchPage) (dp : DetailPage) :
    (search_byterm ratio query .transportError = none ∧
     search_byterm ratio query (.httpError code) = none ∧
     search_byterm ratio query .decodeError = none ∧
     (feedsOrResults p = [] → search_byterm ratio query (.ok p) = none) ∧
     ((∀ x ∈ feedsOrResults p, effTitleByterm x ≠ "" →
        candScore ratio query effTitleByterm x < 2/5) →
       search_byterm ratio query (.ok p) = none)) ∧
    (search_bytitle ratio query .transportError = none ∧
     search_bytitle ratio query (.httpError code) = none ∧
     search_bytitle ratio query .decodeError = none ∧
     (p.feeds.getD [] = [] → search_bytitle ratio query (.ok p) = none) ∧
     ((∀ x ∈ p.feeds.getD [], effTitleBytitle x ≠ "" →
        candScore ratio query effTitleBytitle x < 2/5) →
       search_bytitle ratio query (.ok p) = none)) ∧
    (get_full_podcast_details (.transportError : ApiResponse DetailPage) = none ∧
     get_full_podcast_details (.httpError code : ApiResponse DetailPage) = none ∧
     get_full_podcast_details (.decodeError : ApiResponse DetailPage) = none ∧
     (dp.feed = none → get_full_podcast_details (.ok dp) = none)) := by
  refine ⟨⟨rfl, rfl, rfl, ?_, search_byterm_none_of_low⟩,
          ⟨rfl, rfl, rfl, ?_, search_bytitle_none_of_low⟩,
          ⟨rfl, rfl, rfl, ?_⟩⟩
  · intro h
    simp [search_byterm, h]
  · intro h
    simp [search_bytitle, h]
  · intro h
    simp [get_full_podcast_details, h]

/-- C7 witness: a concrete empty result set, a concrete sub-threshold run,
and a concrete feedless detail payload all yield nothing. -/
theorem c7_never_raises_witness :
    search_byterm ratioLow "x" (.ok { feeds := none, results := none }) = none ∧
    search_byterm ratioLow "x" (.ok searchOkPage) = none ∧
    get_full_podcast_details (.ok { feed := none }) = none := by
  refine ⟨(c7_never_raises ratioLow "x" 500 { feeds := none, results := none }
            { feed := none }).1.2.2.2.1 (by simp [feedsOrResults]),
          (c7_never_raises ratioLow "x" 500 searchOkPage { feed := none }).1.2.2.2.2 ?_,
          (c7_never_raises ratioLow "x" 500 searchOkPage { feed := none }).2.2.2.2.2 rfl⟩
  intro x hx hok
  norm_num [candScore, ratioLow]

/-- Unfolding `processTitle` when the combined search produced no candidate:
sleep 1, nothing else attempted, no row. -/
lemma processTitle_search_none {env : TitleEnv} {title : String}
    (h : searchStage env title = none) :
    processTitle env title =
      { rows := [], sleep := 1, detailByIdCalled := false,
        detailByUrlCalled := false, episodesCalled := false } := by
  simp only [processTitle, h]

/-- Unfolding `processTitle` when the search succeeded but the detail stage
produced nothing: sleep 3/2, episodes never fetched, no row. -/
lemma processTitle_detail_none {env : TitleEnv} {title : String} {c : Candidate}
    (hc : searchStage env title = some c) (hd : detailStage env c = none) :
    processTitle env title =
      { rows := [], sleep := 3/2, detailByIdCalled := intTruthy c.id,
        detailByUrlCalled := (byIdDetail env c).isNone && (urlFallback c).isSome,
        episodesCalled := false } := by
  simp only [processTitle, hc, hd]

/-- Unfolding `processTitle` when the fetched detail has no `id` field:
sleep 3/2, episodes never fetched, no row. -/
lemma processTitle_id_none {env : TitleEnv} {title : String} {c : Candidate}
    {d : FeedDetail}
    (hc : searchStage env title = some c) (hd : detailStage env c = some d)
    (hid : d.id = none) :
    processTitle env title =
      { rows := [], sleep := 3/2, detailByIdCalled := intTruthy c.id,
        detailByUrlCalled := (byIdDetail env c).isNone && (urlFallback c).isSome,
        episodesCalled := false } := by
  simp only [processTitle, hc, hd, hid]

/-- Unfolding `processTitle` when the fetched detail's `id` is the falsy 0:
sleep 3/2, episodes never fetched, no row. -/
lemma processTitle_id_zero {env : TitleEnv} {title : String} {c : Candidate}
    {d : FeedDetail}
    (hc : searchStage env title = some c) (hd : detailStage env c = some d)
    (hid : d.id = some 0) :
    processTitle env title =
      { rows := [], sleep := 3/2, detailByIdCalled := intTruthy c.id,
        detailByUrlCalled := (byIdDetail env c).isNone && (urlFallback c).isSome,
        episodesCalled := false } := by
  simp only [processTitle, hc, hd, hid]
  simp

/-- Unfolding `processTitle` on the success path: a truthy detail id fetches
the episode stats and inserts exactly the built row. -/
lemma processTitle_row {env : TitleEnv} {title : String} {c : Candidate}
    {d : FeedDetail} {fid : Int}
    (hc : searchStage env title = some c) (hd : detailStage env c = some d)
    (hid : d.id = some fid) (hnz : ¬fid = 0) :
    processTitle env title =
      { rows := [buildRow c d (statsStage env d) fid], sleep := 3/2,
        detailByIdCalled := intTruthy c.id,
        detailByUrlCalled := (byIdDetail env c).isNone && (urlFallback c).isSome,
        episodesCalled := true } := by
  simp only [processTitle, hc, hd, hid, if_neg hnz]

/-- C1 counterexample: the episode-stats stage is one of the claim's listed
stages, yet its failure does not suppress the write — in `envStatsFail` the
episodes fetch fails (stats are `(none, none)`) and a row is still written,
refuting the claim as stated. -/
theorem c1_counterexample :
    ¬ (∀ (env : TitleEnv) (title : String) (c : Candidate) (d : FeedDetail),
        searchStage env title = some c → detailStage env c = some d →
        statsStage env d = (none, none) →
        (processTitle env title).rows = []) := by
  intro hcl
  have hc : searchStage envStatsFail "x" = some candX := by
    norm_num +decide [searchStage, search_podcast_combined, search_byterm,
      feedsOrResults, searchOkPage, fuzzyBestLoop, effTitleByterm, candX, ratio1,
      envStatsFail]
  have hd : detailStage envStatsFail candX = some feedX := by
    norm_num +decide [detailStage, byIdDetail, get_full_podcast_details, candX,
      envStatsFail, feedX]
  have hs : statsStage envStatsFail feedX = (none, none) := by
    norm_num +decide [statsStage, feedX, envStatsFail, get_latest_episode_info]
  have h := hcl envStatsFail "x" candX feedX hc hd hs
  rw [processTitle_row hc hd rfl (by norm_num)] at h
  simp at h

/-- C1 (amended): a title whose candidate resolution fails, or whose detail
fetch (including the URL fallback) fails, has all remaining stages skipped
and zero rows written; the episode-stats stage is not among the
short-circuiting stages — its failure still writes a row with absent stats
(see the counterexample). -/
theorem c1_short_circuit (env : TitleEnv) (title : String) :
    (searchStage env title = none →
      processTitle env title =
        { rows := [], sleep := 1, detailByIdCalled := false,
          detailByUrlCalled := false, episodesCalled := false }) ∧
    (∀ c, searchStage env title = some c → detailStage env c = none →
      (processTitle env title).rows = [] ∧
      (processTitle env title).episodesCalled = false) := by
  constructor
  · exact processTitle_search_none
  · intro c hc hd
    rw [processTitle_detail_none hc hd]
    exact ⟨rfl, rfl⟩

/-- C1 witness: in `envSearchFail` the search fails and nothing further runs;
in `envDetailFail` the detail stage fails and episodes are never fetched. -/
theorem c1_short_circuit_witness :
    processTitle envSearchFail "x" =
      { rows := [], sleep := 1, detailByIdCalled := false,
        detailByUrlCalled := false, episodesCalled := false } ∧
    ((processTitle envDetailFail "x").rows = [] ∧
      (processTitle envDetailFail "x").episodesCalled = false) :=
  ⟨(c1_short_circuit envSearchFail "x").1
      (by norm_num +decide [searchStage, search_podcast_combined, search_byterm,
            search_bytitle, envSearchFail, envStatsFail]),
   (c1_short_circuit envDetailFail "x").2 candX
      (by norm_num +decide [searchStage, search_podcast_combined, search_byterm,
            feedsOrResults, searchOkPage, fuzzyBestLoop, effTitleByterm, candX, ratio1,
            envDetailFail, envStatsFail])
      (by norm_num +decide [detailStage, byIdDetail, urlFallback, orFalsy, strTruthy,
            get_full_podcast_details, candX, envDetailFail, envStatsFail])⟩

/-- C8 counterexample: a title whose search succeeded but whose detail fetch
failed is not fully processed (it writes no row) and its search did not fail,
yet the loop still sleeps 3/2 — so pacing is not limited to the claim's two
cases. -/
theorem c8_counterexample :
    ¬ (∀ (env : TitleEnv) (title : String),
        ((processTitle env title).rows ≠ [] → (processTitle env title).sleep = 3/2) ∧
        (searchStage env title = none → (processTitle env title).sleep = 1) ∧
        ((processTitle env title).rows = [] → searchStage env title ≠ none →
          (processTitle env title).sleep = 0)) := by
  intro hcl
  have hc : searchStage envDetailFail "x" = some candX := by
    norm_num +decide [searchStage, search_podcast_combined, search_byterm,
      feedsOrResults, searchOkPage, fuzzyBestLoop, effTitleByterm, candX, ratio1,
      envDetailFail, envStatsFail]
  have hd : detailStage envDetailFail candX = none := by
    norm_num +decide [detailStage, byIdDetail, urlFallback, orFalsy, strTruthy,
      get_full_podcast_details, candX, envDetailFail, envStatsFail]
  have hp := processTitle_detail_none hc hd
  have h := (hcl envDetailFail "x").2.2 (by rw [hp]) (by rw [hc]; simp)
  rw [hp] at h
  norm_num at h

/-- C8 (amended): the inter-title sleep is 1 exactly after a title whose
combined search produced no candidate, and 3/2 after every title whose
search produced a candidate — regardless of how the later stages fared. -/
theorem c8_pacing (env : TitleEnv) (title : String) :
    (processTitle env title).sleep =
      if searchStage env title = none then 1 else 3/2 := by
  rcases hs : searchStage env title with _ | c
  · rw [processTitle_search_none hs]
    simp
  · rcases hd : detailStage env c with _ | d
    · rw [processTitle_detail_none hs hd]
      simp [hs]
    · rcases hid : d.id with _ | fid
      · rw [processTitle_id_none hs hd hid]
        simp [hs]
      · by_cases hz : fid = 0
        · subst hz
          rw [processTitle_id_zero hs hd hid]
          simp [hs]
        · rw [processTitle_row hs hd hid hz]
          simp [hs]

/-- C9: when the fetched feed detail has no `id` field, no row is written for
the title even though candidate resolution and detail retrieval both
succeeded. -/
theorem c9_missing_id_skips_insert (env : TitleEnv) (title : String)
    (c : Candidate) (d : FeedDetail)
    (hc : searchStage env title = some c) (hd : detailStage env c = some d)
    (hid : d.id = none) :
    (processTitle env title).rows = [] := by
  rw [processTitle_id_none hc hd hid]

/-- C9 witness: in `envNoId` the detail fetch succeeds with a feed lacking
`id` and no row is written. -/
theorem c9_missing_id_skips_insert_witness :
    (processTitle envNoId "x").rows = [] :=
  c9_missing_id_skips_insert envNoId "x" candX feedNoId
    (by norm_num +decide [searchStage, search_podcast_combined, search_byterm,
          feedsOrResults, searchOkPage, fuzzyBestLoop, effTitleByterm, candX, ratio1,
          envNoId, envStatsFail])
    (by norm_num +decide [detailStage, byIdDetail, get_full_podcast_details, candX,
          envNoId, envStatsFail, feedNoId, feedX])
    rfl

/-- C10: in the stored row a falsy detail feed-url / original-url is replaced
by the candidate's `url` / `originalUrl`; every other column is independent
of the candidate; and on the success path this built row is exactly what is
written for the title. -/
theorem c10_url_fallback_frame (c c2 : Candidate) (d : FeedDetail)
    (stats : Option Int × Option String) (fid : Int) :
    ((buildRow c d stats fid).feed_url =
      if strTruthy d.url then d.url else c.url) ∧
    ((buildRow c d stats fid).original_url =
      if strTruthy d.originalUrl then d.originalUrl else c.originalUrl) ∧
    ((buildRow c d stats fid).podcast_id = (buildRow c2 d stats fid).podcast_id ∧
     (buildRow c d stats fid).title = (buildRow c2 d stats fid).title ∧
     (buildRow c d stats fid).description = (buildRow c2 d stats fid).description ∧
     (buildRow c d stats fid).image_url = (buildRow c2 d stats fid).image_url ∧
     (buildRow c d stats fid).episode_count = (buildRow c2 d stats fid).episode_count ∧
     (buildRow c d stats fid).avg_duration_last_10 =
       (buildRow c2 d stats fid).avg_duration_last_10 ∧
     (buildRow c d stats fid).latest_episode_title =
       (buildRow c2 d stats fid).latest_episode_title ∧
     (buildRow c d stats fid).last_update_time =
       (buildRow c2 d stats fid).last_update_time ∧
     (buildRow c d stats fid).categories = (buildRow c2 d stats fid).categories ∧
     (buildRow c d stats fid).podcast_guid = (buildRow c2 d stats fid).podcast_guid) ∧
    (∀ (env : TitleEnv) (title : String),
      searchStage env title = some c → detailStage env c = some d →
      d.id = some fid → ¬fid = 0 →
      (processTitle env title).rows = [buildRow c d (statsStage env d) fid]) := by
  refine ⟨rfl, rfl,
    ⟨rfl, rfl, rfl, rfl, rfl, rfl, rfl, rfl, rfl, rfl⟩, ?_⟩
  intro env title hc hd hid hnz
  rw [processTitle_row hc hd hid hnz]

/-- C10 witness: on `envStatsFail` the success path writes exactly the row
built from the candidate and the fetched detail. -/
theorem c10_url_fallback_frame_witness :
    (processTitle envStatsFail "x").rows =
      [buildRow candX feedX (statsStage envStatsFail feedX) 5] :=
  (c10_url_fallback_frame candX candY feedX (none, none) 5).2.2.2 envStatsFail "x"
    (by norm_num +decide [searchStage, search_podcast_combined, search_byterm,
          feedsOrResults, searchOkPage, fuzzyBestLoop, effTitleByterm, candX, ratio1,
          envStatsFail])
    (by norm_num +decide [detailStage, byIdDetail, get_full_podcast_details, candX,
          envStatsFail, feedX])
    rfl
    (by norm_num)

/-- Every entry of `positiveIntDurations` is at least 1. -/
lemma positiveIntDurations_one_le {items : List Episode} :
    ∀ x ∈ positiveIntDurations items, 1 ≤ x := by
  intro x hx
  simp only [positiveIntDurations, List.mem_filterMap] at hx
  obtain ⟨e, _, he⟩ := hx
  rcases hd : e.duration with _ | n | _
  · simp [hd] at he
  · simp only [hd] at he
    by_cases hn : 0 < n
    · rw [if_pos hn] at he
      injection he with he
      omega
    · rw [if_neg hn] at he
      exact absurd he (by simp)
  · simp [hd] at he

/-- The accumulation loop of `get_latest_episode_info` computes the sum and
the count of exactly the positive integer durations. -/
lemma durationFold_spec (items : List Episode) : ∀ (t c : Nat),
    durationFold items (t, c) =
      (t + (positiveIntDurations items).sum,
       c + (positiveIntDurations items).length) := by
  induction items with
  | nil =>
      intro t c
      simp [durationFold, positiveIntDurations]
  | cons e rest ih =>
      intro t c
      rcases hd : e.duration with _ | n | _
      · have hpd : positiveIntDurations (e :: rest) = positiveIntDurations rest := by
          simp [positiveIntDurations, List.filterMap_cons, hd]
        simp only [durationFold, hd, hpd]
        exact ih t c
      · by_cases hn : 0 < n
        · have hcond : n ≠ 0 ∧ 0 < n := ⟨by omega, hn⟩
          have hpd : positiveIntDurations (e :: rest) =
              n.toNat :: positiveIntDurations rest := by
            simp [positiveIntDurations, List.filterMap_cons, hd, hn]
          simp only [durationFold, hd, if_pos hcond, hpd]
          rw [ih (t + n.toNat) (c + 1)]
          simp only [List.sum_cons, List.length_cons, Prod.mk.injEq]
          omega
        · have hcond : ¬(n ≠ 0 ∧ 0 < n) := by omega
          have hpd : positiveIntDurations (e :: rest) = positiveIntDurations rest := by
            simp [positiveIntDurations, List.filterMap_cons, hd, hn]
          simp only [durationFold, hd, if_neg hcond, hpd]
          exact ih t c
      · have hpd : positiveIntDurations (e :: rest) = positiveIntDurations rest := by
          simp [positiveIntDurations, List.filterMap_cons, hd]
        simp only [durationFold, hd, hpd]
        exact ih t c

/-- C4 counterexample: a non-empty episode list whose first item has no
title makes the returned latest-episode title absent, refuting "absent only
when the list is empty". -/
theorem c4_counterexample :
    ¬ (∀ p : EpisodesPage,
        (get_latest_episode_info (.ok p)).2 = none → p.items = []) := by
  intro hcl
  have h := hcl episodesPageNoTitle
    (by norm_num +decide [get_latest_episode_info, durationFold, episodesPageNoTitle])
  simp [episodesPageNoTitle] at h

/-- Evaluation of `get_latest_episode_info` on a decoded non-empty list, via
`durationFold_spec`. -/
lemma get_latest_episode_info_ok_cons (first : Episode) (rest : List Episode) :
    get_latest_episode_info (.ok { items := first :: rest }) =
      (if 0 < (positiveIntDurations (first :: rest)).length
       then some (((positiveIntDurations (first :: rest)).sum /
                   (positiveIntDurations (first :: rest)).length : Nat) : Int)
       else none,
       first.title) := by
  have hfold := durationFold_spec (first :: rest) 0 0
  simp only [Nat.zero_add] at hfold
  simp only [get_latest_episode_info]
  rw [hfold]

/-- C4 (amended): the returned average is the integer-truncated mean of the
durations of exactly those episodes whose duration is a positive integer,
absent when no episode qualifies, and positive (never zero) when present;
the returned latest-episode title is the title field of the first item —
hence absent when the list is empty or when the first item lacks a title. -/
theorem c4_episode_stats (p : EpisodesPage) :
    ((get_latest_episode_info (.ok p)).1 =
      if positiveIntDurations p.items = [] then none
      else some (((positiveIntDurations p.items).sum /
                  (positiveIntDurations p.items).length : Nat) : Int)) ∧
    (∀ n, (get_latest_episode_info (.ok p)).1 = some n → 0 < n) ∧
    ((get_latest_episode_info (.ok p)).2 = p.items.head?.bind Episode.title) := by
  obtain ⟨items⟩ := p
  rcases items with _ | ⟨first, rest⟩
  · have h0 : get_latest_episode_info (.ok ({ items := [] } : EpisodesPage)) =
        (none, none) := rfl
    refine ⟨?_, ?_, ?_⟩
    · rw [h0]
      simp [positiveIntDurations]
    · intro n hn
      rw [h0] at hn
      exact absurd hn (by simp)
    · rw [h0]
      simp
  · refine ⟨?_, ?_, ?_⟩
    · rw [get_latest_episode_info_ok_cons]
      dsimp only
      by_cases hQ : positiveIntDurations (first :: rest) = []
      · rw [if_pos hQ, hQ]
        simp
      · rw [if_neg hQ, if_pos (List.length_pos.mpr hQ)]
    · intro n hn
      rw [get_latest_episode_info_ok_cons] at hn
      dsimp only at hn
      by_cases hlen : 0 < (positiveIntDurations (first :: rest)).length
      · rw [if_pos hlen] at hn
        injection hn with hn
        subst hn
        have hsum : (positiveIntDurations (first :: rest)).length ≤
            (positiveIntDurations (first :: rest)).sum :=
          List.length_le_sum_of_one_le _ positiveIntDurations_one_le
        have hdiv : 1 ≤ (positiveIntDurations (first :: rest)).sum /
            (positiveIntDurations (first :: rest)).length :=
          (Nat.one_le_div_iff hlen).mpr hsum
        exact_mod_cast Nat.lt_of_lt_of_le Nat.zero_lt_one hdiv
      · rw [if_neg hlen] at hn
        exact absurd hn (by simp)
    · rw [get_latest_episode_info_ok_cons]
      simp

/-- C4 witness: the spec scenario — durations 600, 0, 900 average to 750
(the zero duration excluded), positive, and the latest title is the first
item's title. -/
theorem c4_episode_stats_witness :
    0 < (750 : Int) ∧
    (get_latest_episode_info (.ok episodesPageC4)).2 =
      episodesPageC4.items.head?.bind Episode.title :=
  ⟨(c4_episode_stats episodesPageC4).2.1 750
      (by norm_num +decide [get_latest_episode_info, durationFold, episodesPageC4]),
   (c4_episode_stats episodesPageC4).2.2⟩

/-- After upserting `r`, the rows whose key equals `r`'s key are exactly
`[r]`. -/
lemma upsert_filter_self (t : List Row) (r : Row) (k : Int)
    (hk : r.podcast_id = k) :
    (upsert t r).filter (fun x => x.podcast_id == k) = [r] := by
  have h1 : (t.filter (fun r0 => r0.podcast_id != r.podcast_id)).filter
      (fun x => x.podcast_id == k) = [] := by
    rw [List.filter_eq_nil_iff]
    intro a ha
    rw [List.mem_filter] at ha
    have hne : a.podcast_id ≠ r.podcast_id := by simpa using ha.2
    rw [hk] at hne
    simpa using hne
  simp only [upsert, List.filter_append, h1, List.nil_append]
  simp [hk]

/-- C6: starting from any table, upserting any non-empty sequence of records
that all carry the same feedId leaves exactly one row with that feedId in
the table — the payload of the last upsert. -/
theorem c6_upsert_last_wins (rs : List Row) (r : Row) (k : Int) :
    ∀ (t : List Row), (∀ x ∈ rs, x.podcast_id = k) → r.podcast_id = k →
      ((rs ++ [r]).foldl upsert t).filter (fun x => x.podcast_id == k) = [r] := by
  induction rs with
  | nil =>
      intro t _ hr
      simpa using upsert_filter_self t r k hr
  | cons a rest ih =>
      intro t hall hr
      simp only [List.cons_append, List.foldl_cons]
      exact ih (upsert t a) (fun x hx => hall x (List.mem_cons_of_mem _ hx)) hr

/-- C6 witness: upserting two different payloads for feedId 7 into the empty
table leaves exactly the second payload. -/
theorem c6_upsert_last_wins_witness :
    (([rowA] ++ [rowB]).foldl upsert []).filter (fun x => x.podcast_id == 7) =
      [rowB] :=
  c6_upsert_last_wins [rowA] rowB 7 [] (by decide) (by decide)

end PodcastPipeline
